import Mathlib

/-!
# Verification of the sunset-milestone engine

A shallow embedding of the two calculator modules of the repository
(`src/services/sunset-calculator.ts` and `src/services/milestone-calculator.ts`)
together with the coordinate validator `GeolocationService.isValidLocation`.

Modelling conventions:
* The external solar oracle (`sunrise-sunset-js`) is out of scope for the
  repository ("trusted oracle, specified only via its interface"); it is
  modelled as an abstract `Host` record of two functions returning
  `Option DateTime` (`none` models both a missing value and a thrown
  exception, exactly as the `try`/`catch` wrappers in the source do).
* A JavaScript `Date` is modelled by `DateTime`: an absolute local calendar
  day index (days since 1970-01-01 of the host's local calendar, a fixed
  offset clock without DST) together with hour/minute/second/millisecond
  fields.  `getTime`, `setDate`, `setHours`, `setMinutes` and millisecond
  arithmetic are embedded below.  Values produced by the JavaScript runtime
  are always normalised (`hour < 24`, `minute < 60`, ...); where a theorem
  needs that fact about oracle output it takes it as a hypothesis.
* Host day-of-year (used by `getDayOfYear` in the source via the runtime's
  `Date` constructor) is the proleptic Gregorian calendar, embedded with the
  standard civil-from-days conversion.
* Latitudes and longitudes are JavaScript numbers used only in comparisons
  and a rounded division; they are modelled as rationals.
-/

/-- Geographic location, from `types.ts` (`Location`). -/
structure Location where
  latitude : Rat
  longitude : Rat
  name : Option String
  timezone : Option String
  source : String
deriving DecidableEq, Inhabited

/-- Model of a JavaScript `Date`: absolute local day index plus time of day. -/
structure DateTime where
  day : Nat
  hour : Nat
  minute : Nat
  second : Nat
  ms : Nat
deriving DecidableEq, Inhabited

/-- `Date.prototype.getTime` under the fixed-offset local clock model. -/
def toEpochMs (d : DateTime) : Nat :=
  ((d.day * 24 + d.hour) * 60 + d.minute) * 60000 + d.second * 1000 + d.ms

/-- Build a normalised `DateTime` from an epoch-millisecond count. -/
def ofEpochMs (t : Nat) : DateTime :=
  { day := t / 86400000
    hour := t % 86400000 / 3600000
    minute := t % 3600000 / 60000
    second := t % 60000 / 1000
    ms := t % 1000 }

/-- `d.setDate(d.getDate() + i)`: move `i` calendar days forward keeping the
time of day (no DST in the modelled host clock). -/
def addDays (d : DateTime) (i : Nat) : DateTime :=
  { d with day := d.day + i }

/-- `new Date(d.getTime() + k)` for `k ≥ 0` milliseconds. -/
def addMs (d : DateTime) (k : Nat) : DateTime :=
  ofEpochMs (toEpochMs d + k)

/-- `d.setHours(h, min, s, ms)` with JavaScript field normalisation for the
hour (the source only ever passes `h ≤ 24` and in-range minutes/seconds). -/
def setHours (d : DateTime) (h min s ms : Nat) : DateTime :=
  { day := d.day + h / 24, hour := h % 24, minute := min, second := s, ms := ms }

/-- The time of day of an instant in minutes, `getHours() * 60 + getMinutes()`,
exactly as the milestone search compares instants. -/
def timeOfDayMinutes (d : DateTime) : Nat :=
  d.hour * 60 + d.minute

/-- `Math.ceil(a / b)` for integer `a` and positive integer `b`. -/
def intCeilDiv (a b : Int) : Int :=
  -(Int.fdiv (-a) b)

/-!
## Host day-of-year (proleptic Gregorian local calendar)

`getDayOfYear` in `sunset-calculator.ts` computes
`floor((date - new Date(year, 0, 0)) / 86400000)`, the 1-based ordinal day of
the year of the host's local calendar.  We embed the host calendar with the
standard civil-from-days algorithm on the absolute day index.
-/

/-- The Gregorian year containing absolute day `z` (days since 1970-01-01). -/
def yearOfDayIndex (z : Nat) : Nat :=
  let zs := z + 719468
  let era := zs / 146097
  let doe := zs % 146097
  let yoe := ((doe + doe / 36524) - (doe / 1460 + doe / 146096)) / 365
  let doyMar := doe - (365 * yoe + yoe / 4 - yoe / 100)
  era * 400 + yoe + (if 306 ≤ doyMar then 1 else 0)

/-- Absolute day index of January 1 of year `y` (for `y ≥ 1970`). -/
def jan1DayIndex (y : Nat) : Nat :=
  365 * (y - 1970) + ((y - 1) / 4 + (y - 1) / 400 - (y - 1) / 100 - 477)

/-- `getDayOfYear` from `sunset-calculator.ts`: the 1-based ordinal day of the
year of the given date, under the host's Gregorian local calendar. -/
def getDayOfYear (date : DateTime) : Nat :=
  date.day + 1 - jan1DayIndex (yearOfDayIndex date.day)

/-!
## Data model (`types.ts`) and the solar-oracle interface
-/

/-- The two polar failure classifications (`polarType` in `types.ts`). -/
inductive PolarType where
  | midnightSun
  | polarNight
deriving DecidableEq, Inhabited

/-- `SunsetInfo` from `types.ts`. -/
structure SunsetInfo where
  sunset : DateTime
  sunrise : DateTime
  location : Location
  date : DateTime
  timezone : String
  hasSunset : Bool
deriving DecidableEq, Inhabited

/-- `SunCalculationResult` from `types.ts` (optional fields as `Option`). -/
structure SunCalculationResult where
  success : Bool
  sunsetInfo : Option SunsetInfo
  error : Option String
  isPolarRegion : Option Bool
  polarType : Option PolarType
deriving DecidableEq, Inhabited

/-- The external solar oracle plus the host's optional IANA timezone label.
`none` models the library returning no value as well as a thrown exception
(the source treats both identically through its `try`/`catch`). -/
structure Host where
  getSunset : Rat → Rat → DateTime → Option DateTime
  getSunrise : Rat → Rat → DateTime → Option DateTime
  browserTimezone : Option String

/-- Left-pad a numeral to two digits (`padStart(2, '0')`). -/
def pad2 (n : Nat) : String :=
  if n < 10 then "0" ++ toString n else toString n

/-- `Math.round` on a rational (half away from zero rounds up in JS:
`Math.round` rounds half toward positive infinity). -/
def jsRound (x : Rat) : Int :=
  Int.floor (x + mkRat 1 2)

/-- `getTimezone` from `sunset-calculator.ts`: the browser timezone when
available, else `UTC±hh:00` estimated from the longitude. -/
def getTimezone (host : Host) (location : Location) : String :=
  match host.browserTimezone with
  | some tz => tz
  | none =>
    let hoursFromUTC := jsRound (location.longitude / 15)
    let sign := if 0 ≤ hoursFromUTC then "+" else "-"
    "UTC" ++ sign ++ pad2 hoursFromUTC.natAbs ++ ":00"

/-- The failure message built in `handlePolarRegion`. -/
def polarErrorMessage (polarType : PolarType) : String :=
  (if polarType = PolarType.midnightSun then "Midnight sun" else "Polar night")
    ++ " - no sunset during this period"

/-- The season/hemisphere classification computed at the top of
`handlePolarRegion`: `isNorthernHemisphere` is `latitude > 0`,
`isSummerSolstice` is day-of-year 150–200, `isWinterSolstice` is day-of-year
≥ 340 or ≤ 50, and each hemisphere falls back to its first branch outside
both windows. -/
def polarClassification (latitude : Rat) (dayOfYear : Nat) : PolarType :=
  let isNorthernHemisphere := 0 < latitude
  let isSummerSolstice := 150 ≤ dayOfYear ∧ dayOfYear ≤ 200
  let isWinterSolstice := 340 ≤ dayOfYear ∨ dayOfYear ≤ 50
  if isNorthernHemisphere then
    if isSummerSolstice then PolarType.midnightSun
    else if isWinterSolstice then PolarType.polarNight
    else PolarType.midnightSun
  else
    if isSummerSolstice then PolarType.polarNight
    else if isWinterSolstice then PolarType.midnightSun
    else PolarType.polarNight

/-- `handlePolarRegion` from `sunset-calculator.ts`. -/
def handlePolarRegion (host : Host) (location : Location) (date : DateTime) :
    SunCalculationResult :=
  let polarType : PolarType := polarClassification location.latitude (getDayOfYear date)
  match host.getSunset location.latitude location.longitude date,
        host.getSunrise location.latitude location.longitude date with
  | some sunset, some sunrise =>
    { success := true
      sunsetInfo := some
        { sunset := sunset, sunrise := sunrise, location := location, date := date
          timezone := getTimezone host location, hasSunset := true }
      error := none, isPolarRegion := some true, polarType := none }
  | _, _ =>
    { success := false
      sunsetInfo := none
      error := some (polarErrorMessage polarType)
      isPolarRegion := some true
      polarType := some polarType }

/-- `calculateSunsetInfo` from `sunset-calculator.ts`: the Single-Day Sunset
Query.  Note that it performs no coordinate-range validation; any latitude of
absolute value above `66.5` — in range or not — takes the polar path. -/
def calculateSunsetInfo (host : Host) (location : Location) (date : DateTime) :
    SunCalculationResult :=
  if mkRat 133 2 < |location.latitude| then  -- |latitude| > 66.5
    handlePolarRegion host location date
  else
    match host.getSunset location.latitude location.longitude date,
          host.getSunrise location.latitude location.longitude date with
    | some sunset, some sunrise =>
      { success := true
        sunsetInfo := some
          { sunset := sunset, sunrise := sunrise, location := location, date := date
            timezone := getTimezone host location, hasSunset := true }
        error := none, isPolarRegion := none, polarType := none }
    | _, _ =>
      { success := false
        sunsetInfo := none
        error := some ("Unable to calculate sunset times for this location and date")
        isPolarRegion := some false
        polarType := none }

/-- `GeolocationService.isValidLocation` (geolocation service source): the only
coordinate-range validation in the repository, used by callers of the core. -/
def isValidLocation (latitude longitude : Rat) : Bool :=
  decide (-90 ≤ latitude) && decide (latitude ≤ 90) &&
    decide (-180 ≤ longitude) && decide (longitude ≤ 180)

/-!
## Progression Generator (`calculateSunsetProgression`)
-/

/-- The loop body of `calculateSunsetProgression`: entries for offsets
`i, i+1, ..., i+n-1`. -/
def progressionLoop (host : Host) (location : Location) (startDate : DateTime) :
    Nat → Nat → List SunCalculationResult
  | _, 0 => []
  | i, n + 1 =>
    calculateSunsetInfo host location (addDays startDate i)
      :: progressionLoop host location startDate (i + 1) n

/-- `calculateSunsetProgression` from `sunset-calculator.ts`: one Single-Day
query per calendar day from `startDate`, for `days` consecutive days. -/
def calculateSunsetProgression (host : Host) (location : Location)
    (startDate : DateTime) (days : Nat) : List SunCalculationResult :=
  progressionLoop host location startDate 0 days

/-!
## Milestone Search (`findSunsetAfterTime`)
-/

/-- A successful milestone-search result (`{date, sunsetTime}`). -/
structure SunsetMatch where
  date : DateTime
  sunsetTime : DateTime
deriving DecidableEq, Inhabited

/-- The sunset instant a scanned day contributes, when its Single-Day query
succeeds (`result.success && result.sunsetInfo` in the source). -/
def sunsetCandidate (host : Host) (location : Location) (date : DateTime) :
    Option DateTime :=
  let result := calculateSunsetInfo host location date
  if result.success then result.sunsetInfo.map (fun info => info.sunset) else none

/-- The scan of `findSunsetAfterTime`: day offsets `i, i+1, ...` with `n`
days of horizon remaining. -/
def findSunsetAfterTimeGo (host : Host) (location : Location)
    (targetTotalMinutes : Nat) (startDate : DateTime) :
    Nat → Nat → Option SunsetMatch
  | _, 0 => none
  | i, n + 1 =>
    let checkDate := addDays startDate i
    match sunsetCandidate host location checkDate with
    | some sunset =>
      if targetTotalMinutes ≤ timeOfDayMinutes sunset then
        some { date := checkDate, sunsetTime := sunset }
      else
        findSunsetAfterTimeGo host location targetTotalMinutes startDate (i + 1) n
    | none => findSunsetAfterTimeGo host location targetTotalMinutes startDate (i + 1) n

/-- `findSunsetAfterTime` from `sunset-calculator.ts`: scan forward from
`startDate` for up to `maxDays` days, returning the first day whose sunset
time of day (hours*60+minutes, date part ignored) reaches that of
`targetTime`. -/
def findSunsetAfterTime (host : Host) (location : Location)
    (targetTime startDate : DateTime) (maxDays : Nat) : Option SunsetMatch :=
  findSunsetAfterTimeGo host location (timeOfDayMinutes targetTime) startDate 0 maxDays

/-- Whether the day at offset `i` of the scan qualifies: its Single-Day query
succeeds and its sunset time of day reaches the target. -/
def qualifiesB (host : Host) (location : Location) (targetTime startDate : DateTime)
    (i : Nat) : Bool :=
  match sunsetCandidate host location (addDays startDate i) with
  | some sunset => decide (timeOfDayMinutes targetTime ≤ timeOfDayMinutes sunset)
  | none => false

/-!
## Milestone Ladder (`milestone-calculator.ts`)
-/

/-- Milestone classification (`Milestone.type` in `types.ts`). -/
inductive MilestoneType where
  | hour
  | halfHour
  | exactSunset
  | goldenHour
deriving DecidableEq, Inhabited

/-- `Milestone` from `types.ts`. -/
structure Milestone where
  time : DateTime
  type : MilestoneType
  label : String
  isPrimary : Bool
deriving DecidableEq, Inhabited

/-- `getMilestoneType` from `milestone-calculator.ts`. -/
def getMilestoneType (time : DateTime) : MilestoneType :=
  if time.minute = 0 then MilestoneType.hour
  else if time.minute = 30 then MilestoneType.halfHour
  else MilestoneType.exactSunset

/-- `toLocaleTimeString('en-US', {hour: 'numeric', minute: '2-digit', hour12: true})`
under the modelled host locale. -/
def formatClockTime (d : DateTime) : String :=
  let h := d.hour % 12
  let h12 := if h = 0 then 12 else h
  let suffix := if d.hour < 12 then "AM" else "PM"
  toString h12 ++ ":" ++ pad2 d.minute ++ " " ++ suffix

/-- `formatMilestoneLabel` from `milestone-calculator.ts`. -/
def formatMilestoneLabel (time : DateTime) (type : MilestoneType) : String :=
  if type = MilestoneType.exactSunset then "Sunset"
  else if type = MilestoneType.goldenHour then "Golden Hour"
  else formatClockTime time

/-- The rounding step of `getNextMilestone`: today's sunset time rounded up to
the next 30-minute boundary (`setMinutes(30, 0, 0)` when the minute is below
30, else `setHours(hour + 1, 0, 0, 0)`). -/
def roundUpToNextHalfHour (todaySunset : DateTime) : DateTime :=
  if todaySunset.minute < 30 then
    { todaySunset with minute := 30, second := 0, ms := 0 }
  else
    setHours todaySunset (todaySunset.hour + 1) 0 0 0

/-- The record returned by `getNextMilestone`. -/
structure NextMilestoneResult where
  milestone : Option Milestone
  sunsetInfo : Option SunsetInfo
  daysUntil : Int
  error : Option String
deriving DecidableEq, Inhabited

/-- The final assembly step of `getNextMilestone`'s success path: the returned
sunset info is the follow-up query's when that query succeeded, else today's
(`futureSunsetInfo.success ? futureSunsetInfo.sunsetInfo! : todayResult.sunsetInfo!`). -/
def assembleNextMilestone (milestone : Milestone) (daysUntil : Int)
    (todayResult futureResult : SunCalculationResult) : NextMilestoneResult :=
  { milestone := some milestone
    sunsetInfo :=
      some (if futureResult.success then futureResult.sunsetInfo.get!
            else todayResult.sunsetInfo.get!)
    daysUntil := daysUntil
    error := none }

/-- `getNextMilestone` from `milestone-calculator.ts`. -/
def getNextMilestone (host : Host) (location : Location) (currentDate : DateTime) :
    NextMilestoneResult :=
  let todayResult := calculateSunsetInfo host location currentDate
  if todayResult.success then
    let todaySunset := todayResult.sunsetInfo.get!.sunset
    let nextMilestoneTime := roundUpToNextHalfHour todaySunset
    match findSunsetAfterTime host location nextMilestoneTime currentDate 365 with
    | some result =>
      let daysUntil :=
        intCeilDiv ((toEpochMs result.date : Int) - (toEpochMs currentDate : Int)) 86400000
      let milestone : Milestone :=
        { time := nextMilestoneTime
          type := getMilestoneType nextMilestoneTime
          label := formatMilestoneLabel nextMilestoneTime (getMilestoneType nextMilestoneTime)
          isPrimary := true }
      assembleNextMilestone milestone daysUntil todayResult
        (calculateSunsetInfo host location result.date)
    | none =>
      { milestone := none, sunsetInfo := none, daysUntil := 0
        error := some ("Could not find when sunset reaches next milestone") }
  else
    { milestone := none, sunsetInfo := none, daysUntil := 0, error := todayResult.error }

/-- A ladder entry returned by `getUpcomingMilestones`
(`Milestone & {targetDate, daysUntil}`). -/
structure UpcomingMilestone where
  time : DateTime
  type : MilestoneType
  label : String
  isPrimary : Bool
  targetDate : DateTime
  daysUntil : Int
deriving DecidableEq, Inhabited

/-- The entry `getUpcomingMilestones` pushes for a candidate boundary whose
milestone search found a match. -/
def upcomingEntry (currentDate currentMilestone : DateTime) (result : SunsetMatch) :
    UpcomingMilestone :=
  { time := currentMilestone
    type := getMilestoneType currentMilestone
    label := formatMilestoneLabel currentMilestone (getMilestoneType currentMilestone)
    isPrimary := false
    targetDate := result.sunsetTime
    daysUntil := intCeilDiv
      ((toEpochMs result.sunsetTime : Int) - (toEpochMs currentDate : Int)) 86400000 }

/-- The loop of `getUpcomingMilestones`: each iteration advances the candidate
by 30 minutes, stops once the candidate is past 21:30
(`hours > 21 || (hours === 21 && minutes > 30)`), and otherwise emits an
entry exactly when the milestone search finds a match. -/
def upcomingLoop (host : Host) (location : Location) (currentDate : DateTime) :
    DateTime → Nat → List UpcomingMilestone
  | _, 0 => []
  | prev, n + 1 =>
    let currentMilestone := addMs prev (30 * 60 * 1000)
    if 21 < currentMilestone.hour ∨ (currentMilestone.hour = 21 ∧ 30 < currentMilestone.minute)
    then []
    else
      match findSunsetAfterTime host location currentMilestone currentDate 365 with
      | some result =>
        upcomingEntry currentDate currentMilestone result
          :: upcomingLoop host location currentDate currentMilestone n
      | none => upcomingLoop host location currentDate currentMilestone n

/-- `getUpcomingMilestones` from `milestone-calculator.ts`. -/
def getUpcomingMilestones (host : Host) (location : Location) (currentDate : DateTime)
    (count : Nat) : List UpcomingMilestone :=
  match (getNextMilestone host location currentDate).milestone with
  | none => []
  | some m => upcomingLoop host location currentDate m.time count

/-!
## Countdown view (`calculateCountdown`)
-/

/-- The `timeRemaining` component of `CountdownInfo`. -/
structure TimeRemaining where
  days : Nat
  hours : Nat
  minutes : Nat
  seconds : Nat
deriving DecidableEq, Inhabited

/-- `CountdownInfo` from `types.ts`. -/
structure CountdownInfo where
  timeRemaining : TimeRemaining
  milestone : Milestone
  totalMinutes : Nat
  targetDate : DateTime
deriving DecidableEq, Inhabited

/-- `calculateCountdown` from `milestone-calculator.ts`.  After the
`totalMilliseconds < 0` guard the remaining arithmetic acts on a non-negative
count, so the `Math.floor` divisions and `%` remainders coincide with natural
division and modulus. -/
def calculateCountdown (host : Host) (location : Location) (currentDate : DateTime) :
    Option CountdownInfo :=
  let next := getNextMilestone host location currentDate
  match next.milestone with
  | none => none
  | some milestone =>
    if next.daysUntil < 0 then none
    else
      match findSunsetAfterTime host location milestone.time currentDate 365 with
      | none => none
      | some result =>
        let totalMilliseconds : Int :=
          (toEpochMs result.sunsetTime : Int) - (toEpochMs currentDate : Int)
        if totalMilliseconds < 0 then none
        else
          let msN := totalMilliseconds.toNat
          some
            { timeRemaining :=
                { days := msN / 86400000
                  hours := msN % 86400000 / 3600000
                  minutes := msN % 3600000 / 60000
                  seconds := msN % 60000 / 1000 }
              milestone := milestone
              totalMinutes := msN / 60000
              targetDate := result.sunsetTime }

/-!
## Concrete fixtures used by witnesses and counterexamples
-/

/-- A host whose oracle never produces a value. -/
def oracleNoneHost : Host :=
  { getSunset := fun _ _ _ => none
    getSunrise := fun _ _ _ => none
    browserTimezone := some ("America/Los_Angeles") }

/-- A host whose oracle always returns the same pair of instants. -/
def constHost (sunset sunrise : DateTime) : Host :=
  { getSunset := fun _ _ _ => some sunset
    getSunrise := fun _ _ _ => some sunrise
    browserTimezone := some ("America/Los_Angeles") }

/-- A host whose sunset is `s0` on calendar day 0 and `s1` on every later day. -/
def stepHost (s0 s1 : DateTime) : Host :=
  { getSunset := fun _ _ d => some (if d.day = 0 then s0 else s1)
    getSunrise := fun _ _ _ => some { day := 0, hour := 6, minute := 0, second := 0, ms := 0 }
    browserTimezone := some ("America/Los_Angeles") }

/-- A mid-latitude location (Seattle rounded to whole degrees). -/
def seattleLoc : Location :=
  { latitude := 47, longitude := -122, name := none, timezone := none, source := "manual" }

/-- A candidate-polar northern location. -/
def northPolarLoc : Location :=
  { latitude := 80, longitude := 0, name := none, timezone := none, source := "manual" }

/-- A candidate-polar southern location. -/
def southPolarLoc : Location :=
  { latitude := -80, longitude := 0, name := none, timezone := none, source := "manual" }

/-- The out-of-range location of the spec scenario (latitude 999, longitude 999). -/
def invalidLoc : Location :=
  { latitude := 999, longitude := 999, name := none, timezone := none, source := "manual" }

/-- Noon of absolute day 0 (1970-01-01 in the modelled host calendar). -/
def noonDay0 : DateTime := { day := 0, hour := 12, minute := 0, second := 0, ms := 0 }

/-- A date with day-of-year 170 (inside the 150–200 northern-summer window). -/
def summerDate : DateTime := { day := 169, hour := 0, minute := 0, second := 0, ms := 0 }

/-- A date with day-of-year 346 (inside the 340–366 northern-winter window). -/
def winterDate : DateTime := { day := 345, hour := 0, minute := 0, second := 0, ms := 0 }

/-- A date with day-of-year 100 (outside both solstice windows). -/
def offSolsticeDate : DateTime := { day := 99, hour := 0, minute := 0, second := 0, ms := 0 }

/-!
## The milestone-search scan: characterisation lemmas
-/

theorem findSunsetAfterTimeGo_zero (host : Host) (location : Location)
    (targetTotal : Nat) (startDate : DateTime) (i : Nat) :
    findSunsetAfterTimeGo host location targetTotal startDate i 0 = none := rfl

theorem findSunsetAfterTimeGo_succ (host : Host) (location : Location)
    (targetTotal : Nat) (startDate : DateTime) (i n : Nat) :
    findSunsetAfterTimeGo host location targetTotal startDate i (n + 1) =
      match sunsetCandidate host location (addDays startDate i) with
      | some sunset =>
        if targetTotal ≤ timeOfDayMinutes sunset then
          some { date := addDays startDate i, sunsetTime := sunset }
        else findSunsetAfterTimeGo host location targetTotal startDate (i + 1) n
      | none => findSunsetAfterTimeGo host location targetTotal startDate (i + 1) n := rfl

theorem findSunsetAfterTimeGo_succ_none (host : Host) (location : Location)
    (targetTotal : Nat) (startDate : DateTime) (i n : Nat)
    (hc : sunsetCandidate host location (addDays startDate i) = none) :
    findSunsetAfterTimeGo host location targetTotal startDate i (n + 1) =
      findSunsetAfterTimeGo host location targetTotal startDate (i + 1) n := by
  rw [findSunsetAfterTimeGo_succ, hc]

theorem findSunsetAfterTimeGo_succ_some (host : Host) (location : Location)
    (targetTotal : Nat) (startDate : DateTime) (i n : Nat) (s : DateTime)
    (hc : sunsetCandidate host location (addDays startDate i) = some s) :
    findSunsetAfterTimeGo host location targetTotal startDate i (n + 1) =
      if targetTotal ≤ timeOfDayMinutes s then
        some { date := addDays startDate i, sunsetTime := s }
      else findSunsetAfterTimeGo host location targetTotal startDate (i + 1) n := by
  rw [findSunsetAfterTimeGo_succ, hc]

theorem findSunsetAfterTimeGo_eq_some (host : Host) (location : Location)
    (targetTime startDate : DateTime) :
    ∀ n i m, findSunsetAfterTimeGo host location (timeOfDayMinutes targetTime) startDate i n
        = some m →
      ∃ k, i ≤ k ∧ k < i + n ∧
        sunsetCandidate host location (addDays startDate k) = some m.sunsetTime ∧
        m.date = addDays startDate k ∧
        timeOfDayMinutes targetTime ≤ timeOfDayMinutes m.sunsetTime ∧
        ∀ j, i ≤ j → j < k → ∀ s,
          sunsetCandidate host location (addDays startDate j) = some s →
          timeOfDayMinutes s < timeOfDayMinutes targetTime := by
  intro n
  induction n with
  | zero => intro i m h; rw [findSunsetAfterTimeGo_zero] at h; cases h
  | succ n ih =>
    intro i m h
    rcases hc : sunsetCandidate host location (addDays startDate i) with _ | s
    · rw [findSunsetAfterTimeGo_succ_none host location _ startDate i n hc] at h
      obtain ⟨k, hik, hkn, h1, h2, h3, h4⟩ := ih (i + 1) m h
      refine ⟨k, by omega, by omega, h1, h2, h3, ?_⟩
      intro j hij hjk s' hs'
      rcases Nat.eq_or_lt_of_le hij with rfl | hlt
      · rw [hc] at hs'; cases hs'
      · exact h4 j hlt hjk s' hs'
    · rw [findSunsetAfterTimeGo_succ_some host location _ startDate i n s hc] at h
      by_cases ht : timeOfDayMinutes targetTime ≤ timeOfDayMinutes s
      · rw [if_pos ht] at h
        cases h
        exact ⟨i, Nat.le_refl i, by omega, hc, rfl, ht, fun j hij hji => by omega⟩
      · rw [if_neg ht] at h
        obtain ⟨k, hik, hkn, h1, h2, h3, h4⟩ := ih (i + 1) m h
        refine ⟨k, by omega, by omega, h1, h2, h3, ?_⟩
        intro j hij hjk s' hs'
        rcases Nat.eq_or_lt_of_le hij with rfl | hlt
        · rw [hc] at hs'
          cases hs'
          omega
        · exact h4 j hlt hjk s' hs'

theorem findSunsetAfterTimeGo_eq_none_iff (host : Host) (location : Location)
    (targetTime startDate : DateTime) :
    ∀ n i, findSunsetAfterTimeGo host location (timeOfDayMinutes targetTime) startDate i n
        = none ↔
      ∀ k, i ≤ k → k < i + n → qualifiesB host location targetTime startDate k = false := by
  intro n
  induction n with
  | zero =>
    intro i
    rw [findSunsetAfterTimeGo_zero]
    constructor
    · intro _ k hik hkn; omega
    · intro _; rfl
  | succ n ih =>
    intro i
    rcases hc : sunsetCandidate host location (addDays startDate i) with _ | s
    · rw [findSunsetAfterTimeGo_succ_none host location _ startDate i n hc, ih (i + 1)]
      constructor
      · intro h k hik hkn
        rcases Nat.eq_or_lt_of_le hik with rfl | hlt
        · rw [qualifiesB, hc]
        · exact h k hlt (by omega)
      · intro h k hik hkn
        exact h k (by omega) (by omega)
    · rw [findSunsetAfterTimeGo_succ_some host location _ startDate i n s hc]
      by_cases ht : timeOfDayMinutes targetTime ≤ timeOfDayMinutes s
      · rw [if_pos ht]
        constructor
        · intro h; cases h
        · intro h
          have hq := h i (Nat.le_refl i) (by omega)
          rw [qualifiesB, hc] at hq
          simp [ht] at hq
      · rw [if_neg ht, ih (i + 1)]
        constructor
        · intro h k hik hkn
          rcases Nat.eq_or_lt_of_le hik with rfl | hlt
          · rw [qualifiesB, hc]; simp [ht]
          · exact h k hlt (by omega)
        · intro h k hik hkn
          exact h k (by omega) (by omega)

/-- A day's entry in the scan, unfolded to the Single-Day query it wraps. -/
theorem sunsetCandidate_eq_some_iff (host : Host) (location : Location)
    (date s : DateTime) :
    sunsetCandidate host location date = some s ↔
      (calculateSunsetInfo host location date).success = true ∧
      ∃ info, (calculateSunsetInfo host location date).sunsetInfo = some info ∧
        info.sunset = s := by
  simp only [sunsetCandidate]
  cases hs : (calculateSunsetInfo host location date).success with
  | false => simp [hs]
  | true =>
    cases hi : (calculateSunsetInfo host location date).sunsetInfo with
    | none => simp [hi]
    | some info => simp [hi, eq_comm]

/-- **C1** — If the milestone search `findSunsetAfterTime` returns a match,
the match date is `startDate + k` days for some offset `k` inside the horizon
(hence on or after the start date), the Single-Day query at the match date
succeeds and reports exactly the matched sunset instant, that sunset's time of
day (hours*60+minutes, date ignored) is at or after the target's, and every
earlier scanned day whose query succeeds has a sunset time of day strictly
below the target — the match is the first qualifying date in the window. -/
theorem findSunsetAfterTime_first_qualifying (host : Host) (location : Location)
    (targetTime startDate : DateTime) (maxDays : Nat) (m : SunsetMatch)
    (h : findSunsetAfterTime host location targetTime startDate maxDays = some m) :
    ∃ k, k < maxDays ∧ m.date = addDays startDate k ∧ startDate.day ≤ m.date.day ∧
      (calculateSunsetInfo host location m.date).success = true ∧
      (∃ info, (calculateSunsetInfo host location m.date).sunsetInfo = some info ∧
        info.sunset = m.sunsetTime) ∧
      timeOfDayMinutes targetTime ≤ timeOfDayMinutes m.sunsetTime ∧
      ∀ j, j < k → ∀ info,
        (calculateSunsetInfo host location (addDays startDate j)).success = true →
        (calculateSunsetInfo host location (addDays startDate j)).sunsetInfo = some info →
        timeOfDayMinutes info.sunset < timeOfDayMinutes targetTime := by
  obtain ⟨k, h0k, hkn, h1, h2, h3, h4⟩ :=
    findSunsetAfterTimeGo_eq_some host location targetTime startDate maxDays 0 m h
  have hcand : sunsetCandidate host location m.date = some m.sunsetTime := by
    rw [h2]; exact h1
  obtain ⟨hsucc, info, hinfo, hsunset⟩ := (sunsetCandidate_eq_some_iff _ _ _ _).mp hcand
  refine ⟨k, by omega, h2, ?_, hsucc, ⟨info, hinfo, hsunset⟩, h3, ?_⟩
  · rw [h2]; simp [addDays]
  · intro j hj info' hsucc' hinfo'
    have hcand' : sunsetCandidate host location (addDays startDate j) = some info'.sunset :=
      (sunsetCandidate_eq_some_iff _ _ _ _).mpr ⟨hsucc', info', hinfo', rfl⟩
    exact h4 j (by omega) hj info'.sunset hcand'

/-- Closed instance of C1: a two-day oracle where day 0's sunset (17:00) misses
the 17:30 target and day 1's sunset (18:00) reaches it. -/
theorem findSunsetAfterTime_first_qualifying_witness :
    ∃ k, k < 3 ∧
      (⟨1, 12, 0, 0, 0⟩ : DateTime) = addDays noonDay0 k ∧
      noonDay0.day ≤ (⟨1, 12, 0, 0, 0⟩ : DateTime).day ∧
      (calculateSunsetInfo (stepHost ⟨0, 17, 0, 0, 0⟩ ⟨1, 18, 0, 0, 0⟩) seattleLoc
          ⟨1, 12, 0, 0, 0⟩).success = true ∧
      (∃ info, (calculateSunsetInfo (stepHost ⟨0, 17, 0, 0, 0⟩ ⟨1, 18, 0, 0, 0⟩) seattleLoc
          ⟨1, 12, 0, 0, 0⟩).sunsetInfo = some info ∧
        info.sunset = (⟨1, 18, 0, 0, 0⟩ : DateTime)) ∧
      timeOfDayMinutes ⟨0, 17, 30, 0, 0⟩ ≤ timeOfDayMinutes ⟨1, 18, 0, 0, 0⟩ ∧
      ∀ j, j < k → ∀ info,
        (calculateSunsetInfo (stepHost ⟨0, 17, 0, 0, 0⟩ ⟨1, 18, 0, 0, 0⟩) seattleLoc
          (addDays noonDay0 j)).success = true →
        (calculateSunsetInfo (stepHost ⟨0, 17, 0, 0, 0⟩ ⟨1, 18, 0, 0, 0⟩) seattleLoc
          (addDays noonDay0 j)).sunsetInfo = some info →
        timeOfDayMinutes info.sunset < timeOfDayMinutes ⟨0, 17, 30, 0, 0⟩ :=
  findSunsetAfterTime_first_qualifying
    (stepHost ⟨0, 17, 0, 0, 0⟩ ⟨1, 18, 0, 0, 0⟩) seattleLoc
    ⟨0, 17, 30, 0, 0⟩ noonDay0 3 ⟨⟨1, 12, 0, 0, 0⟩, ⟨1, 18, 0, 0, 0⟩⟩ (by decide)

/-- **C6** — The milestone search returns its not-found result (`none`) exactly
when no day in the horizon qualifies.  In particular a day whose Single-Day
query fails merely does not qualify: the scan keeps going, and an individual
day's failure is never surfaced as the search's own result — only exhausting
the horizon without a qualifying day is. -/
theorem findSunsetAfterTime_skips_failing_days (host : Host) (location : Location)
    (targetTime startDate : DateTime) (maxDays : Nat) :
    findSunsetAfterTime host location targetTime startDate maxDays = none ↔
      ∀ i, i < maxDays → qualifiesB host location targetTime startDate i = false := by
  unfold findSunsetAfterTime
  rw [findSunsetAfterTimeGo_eq_none_iff]
  constructor
  · intro h i hi
    exact h i (by omega) (by omega)
  · intro h k h0 hk
    exact h k (by omega)

/-- Closed instance of C6: with an oracle that fails on every day, a 3-day
search exhausts its horizon and returns `none`. -/
theorem findSunsetAfterTime_skips_failing_days_witness :
    findSunsetAfterTime oracleNoneHost seattleLoc ⟨0, 19, 0, 0, 0⟩ noonDay0 3 = none :=
  (findSunsetAfterTime_skips_failing_days oracleNoneHost seattleLoc
    ⟨0, 19, 0, 0, 0⟩ noonDay0 3).mpr (by decide)

theorem progressionLoop_length (host : Host) (location : Location)
    (startDate : DateTime) :
    ∀ n i, (progressionLoop host location startDate i n).length = n := by
  intro n
  induction n with
  | zero => intro i; rfl
  | succ n ih => intro i; simp [progressionLoop, ih (i + 1)]

theorem progressionLoop_get (host : Host) (location : Location) (startDate : DateTime) :
    ∀ n i j (hj : j < (progressionLoop host location startDate i n).length),
      (progressionLoop host location startDate i n).get ⟨j, hj⟩ =
        calculateSunsetInfo host location (addDays startDate (i + j)) := by
  intro n
  induction n with
  | zero =>
    intro i j hj
    rw [progressionLoop_length] at hj
    omega
  | succ n ih =>
    intro i j hj
    cases j with
    | zero => simp [progressionLoop]
    | succ j =>
      have hj' : j < (progressionLoop host location startDate (i + 1) n).length := by
        rw [progressionLoop_length]
        rw [progressionLoop_length] at hj
        omega
      have hstep := ih (i + 1) j hj'
      have harith : i + 1 + j = i + (j + 1) := by omega
      rw [harith] at hstep
      simp only [progressionLoop, List.get_cons_succ]
      exact hstep

/-- **C8** — `calculateSunsetProgression` returns exactly `n` results, the
`i`-th (0-based) being the Single-Day query result for `startDate + i`
calendar days; `n = 0` yields the empty list. -/
theorem calculateSunsetProgression_spec (host : Host) (location : Location)
    (startDate : DateTime) (n : Nat) :
    (calculateSunsetProgression host location startDate n).length = n ∧
    calculateSunsetProgression host location startDate 0 = [] ∧
    ∀ i (hi : i < (calculateSunsetProgression host location startDate n).length),
      (calculateSunsetProgression host location startDate n).get ⟨i, hi⟩ =
        calculateSunsetInfo host location (addDays startDate i) := by
  refine ⟨progressionLoop_length host location startDate n 0, rfl, ?_⟩
  intro i hi
  have := progressionLoop_get host location startDate n 0 i hi
  simpa using this

/-- Closed instance of C8: a 2-day progression has length 2 and its entry 1 is
the Single-Day query at `startDate + 1`. -/
theorem calculateSunsetProgression_spec_witness :
    (calculateSunsetProgression oracleNoneHost seattleLoc noonDay0 2).length = 2 ∧
    (calculateSunsetProgression oracleNoneHost seattleLoc noonDay0 2).get
        ⟨1, by decide⟩ =
      calculateSunsetInfo oracleNoneHost seattleLoc (addDays noonDay0 1) :=
  ⟨(calculateSunsetProgression_spec oracleNoneHost seattleLoc noonDay0 2).1,
    (calculateSunsetProgression_spec oracleNoneHost seattleLoc noonDay0 2).2.2 1 (by decide)⟩

/-- When either oracle call yields nothing, `handlePolarRegion` returns the
classified polar failure. -/
theorem handlePolarRegion_failure (host : Host) (location : Location) (d : DateTime)
    (hnone : host.getSunset location.latitude location.longitude d = none ∨
      host.getSunrise location.latitude location.longitude d = none) :
    handlePolarRegion host location d =
      { success := false
        sunsetInfo := none
        error := some (polarErrorMessage (polarClassification location.latitude (getDayOfYear d)))
        isPolarRegion := some true
        polarType := some (polarClassification location.latitude (getDayOfYear d)) } := by
  unfold handlePolarRegion
  rcases hs : host.getSunset location.latitude location.longitude d with _ | s <;>
    rcases hr : host.getSunrise location.latitude location.longitude d with _ | r <;>
      simp only [hs, hr] at hnone ⊢
  simp at hnone

/-- Above the polar threshold, the Single-Day query delegates to
`handlePolarRegion`. -/
theorem calculateSunsetInfo_polar_path (host : Host) (location : Location) (d : DateTime)
    (hlat : mkRat 133 2 < |location.latitude|) :
    calculateSunsetInfo host location d = handlePolarRegion host location d := by
  unfold calculateSunsetInfo
  rw [if_pos hlat]

/-- At or below the polar threshold, an oracle miss yields the generic
calculation failure. -/
theorem calculateSunsetInfo_generic_failure (host : Host) (location : Location)
    (d : DateTime) (hlat : ¬ mkRat 133 2 < |location.latitude|)
    (hnone : host.getSunset location.latitude location.longitude d = none ∨
      host.getSunrise location.latitude location.longitude d = none) :
    calculateSunsetInfo host location d =
      { success := false
        sunsetInfo := none
        error := some ("Unable to calculate sunset times for this location and date")
        isPolarRegion := some false
        polarType := none } := by
  unfold calculateSunsetInfo
  rw [if_neg hlat]
  rcases hs : host.getSunset location.latitude location.longitude d with _ | s <;>
    rcases hr : host.getSunrise location.latitude location.longitude d with _ | r <;>
      simp only [hs, hr] at hnone ⊢
  simp at hnone

/-- **C7** — When the oracle yields no value above the polar threshold
(|latitude| > 66.5, embedded as the exact rational `mkRat 133 2`), the failure
is a polar condition classified by hemisphere and day-of-year window
(150–200: midnight sun in the north, polar night in the south; ≥ 340 or ≤ 50:
the reverse), and the classification is surfaced as the failure reason; when
the oracle yields no value at or below the threshold, the result is the
generic calculation failure with no polar classification. -/
theorem calculateSunsetInfo_polar_classification :
    (∀ (host : Host) (location : Location) (d : DateTime),
      mkRat 133 2 < |location.latitude| →
      (host.getSunset location.latitude location.longitude d = none ∨
        host.getSunrise location.latitude location.longitude d = none) →
      (calculateSunsetInfo host location d).success = false ∧
      (calculateSunsetInfo host location d).sunsetInfo = none ∧
      (calculateSunsetInfo host location d).isPolarRegion = some true ∧
      (150 ≤ getDayOfYear d ∧ getDayOfYear d ≤ 200 →
        (calculateSunsetInfo host location d).polarType =
          some (if 0 < location.latitude then PolarType.midnightSun
                else PolarType.polarNight) ∧
        (calculateSunsetInfo host location d).error =
          some (polarErrorMessage
            (if 0 < location.latitude then PolarType.midnightSun
             else PolarType.polarNight))) ∧
      (340 ≤ getDayOfYear d ∨ getDayOfYear d ≤ 50 →
        (calculateSunsetInfo host location d).polarType =
          some (if 0 < location.latitude then PolarType.polarNight
                else PolarType.midnightSun) ∧
        (calculateSunsetInfo host location d).error =
          some (polarErrorMessage
            (if 0 < location.latitude then PolarType.polarNight
             else PolarType.midnightSun)))) ∧
    (∀ (host : Host) (location : Location) (d : DateTime),
      |location.latitude| ≤ mkRat 133 2 →
      (host.getSunset location.latitude location.longitude d = none ∨
        host.getSunrise location.latitude location.longitude d = none) →
      calculateSunsetInfo host location d =
        { success := false
          sunsetInfo := none
          error := some ("Unable to calculate sunset times for this location and date")
          isPolarRegion := some false
          polarType := none }) := by
  constructor
  · intro host location d hlat hnone
    rw [calculateSunsetInfo_polar_path host location d hlat,
      handlePolarRegion_failure host location d hnone]
    refine ⟨rfl, rfl, rfl, ?_, ?_⟩
    · intro hw
      have hcl : polarClassification location.latitude (getDayOfYear d) =
          if 0 < location.latitude then PolarType.midnightSun else PolarType.polarNight := by
        simp only [polarClassification]
        split_ifs <;> first | rfl | omega
      rw [hcl]
      exact ⟨rfl, rfl⟩
    · intro hw
      have hcl : polarClassification location.latitude (getDayOfYear d) =
          if 0 < location.latitude then PolarType.polarNight else PolarType.midnightSun := by
        simp only [polarClassification]
        split_ifs <;> first | rfl | omega
      rw [hcl]
      exact ⟨rfl, rfl⟩
  · intro host location d hlat hnone
    exact calculateSunsetInfo_generic_failure host location d (not_lt.mpr hlat) hnone

/-- Closed instance of C7: with a valueless oracle, latitude 80 at day-of-year
170 reports midnight sun, latitude -80 at day-of-year 346 reports midnight
sun, latitude 80 at day-of-year 346 reports polar night, and latitude 47 at
day-of-year 170 reports the generic calculation failure. -/
theorem calculateSunsetInfo_polar_classification_witness :
    (calculateSunsetInfo oracleNoneHost northPolarLoc summerDate).polarType =
        some PolarType.midnightSun ∧
    (calculateSunsetInfo oracleNoneHost northPolarLoc winterDate).polarType =
        some PolarType.polarNight ∧
    (calculateSunsetInfo oracleNoneHost southPolarLoc winterDate).polarType =
        some PolarType.midnightSun ∧
    calculateSunsetInfo oracleNoneHost seattleLoc summerDate =
      { success := false
        sunsetInfo := none
        error := some ("Unable to calculate sunset times for this location and date")
        isPolarRegion := some false
        polarType := none } := by
  have hn := (calculateSunsetInfo_polar_classification).1 oracleNoneHost northPolarLoc
    summerDate (by decide) (Or.inl rfl)
  have hnw := (calculateSunsetInfo_polar_classification).1 oracleNoneHost northPolarLoc
    winterDate (by decide) (Or.inl rfl)
  have hsw := (calculateSunsetInfo_polar_classification).1 oracleNoneHost southPolarLoc
    winterDate (by decide) (Or.inl rfl)
  have hgen := (calculateSunsetInfo_polar_classification).2 oracleNoneHost seattleLoc
    summerDate (by decide) (Or.inl rfl)
  have hposN : (0 : Rat) < northPolarLoc.latitude := by decide
  have hposS : ¬ (0 : Rat) < southPolarLoc.latitude := by decide
  refine ⟨?_, ?_, ?_, hgen⟩
  · have h := (hn.2.2.2.1 (by decide)).1
    rwa [if_pos hposN] at h
  · have h := (hnw.2.2.2.2 (by decide)).1
    rwa [if_pos hposN] at h
  · have h := (hsw.2.2.2.2 (by decide)).1
    rwa [if_neg hposS] at h

/-- **C9** — Above the polar threshold, an oracle miss on a day outside both
solstice windows (day-of-year 51–149 or 201–339) is still reported as a polar
condition: midnight sun for the northern hemisphere and polar night for the
southern, the per-hemisphere default branch. -/
theorem calculateSunsetInfo_polar_default_classification (host : Host)
    (location : Location) (d : DateTime)
    (hlat : mkRat 133 2 < |location.latitude|)
    (hnone : host.getSunset location.latitude location.longitude d = none ∨
      host.getSunrise location.latitude location.longitude d = none)
    (hw : (51 ≤ getDayOfYear d ∧ getDayOfYear d ≤ 149) ∨
      (201 ≤ getDayOfYear d ∧ getDayOfYear d ≤ 339)) :
    (calculateSunsetInfo host location d).success = false ∧
    (calculateSunsetInfo host location d).isPolarRegion = some true ∧
    (calculateSunsetInfo host location d).polarType =
      some (if 0 < location.latitude then PolarType.midnightSun
            else PolarType.polarNight) ∧
    (calculateSunsetInfo host location d).error =
      some (polarErrorMessage
        (if 0 < location.latitude then PolarType.midnightSun
         else PolarType.polarNight)) := by
  rw [calculateSunsetInfo_polar_path host location d hlat,
    handlePolarRegion_failure host location d hnone]
  have hcl : polarClassification location.latitude (getDayOfYear d) =
      if 0 < location.latitude then PolarType.midnightSun else PolarType.polarNight := by
    simp only [polarClassification]
    split_ifs <;> first | rfl | omega
  rw [hcl]
  exact ⟨rfl, rfl, rfl, rfl⟩

/-- Closed instance of C9: a valueless oracle at latitude 80 and at latitude
-80 on day-of-year 100 (outside both windows) reports midnight sun and polar
night respectively. -/
theorem calculateSunsetInfo_polar_default_classification_witness :
    (calculateSunsetInfo oracleNoneHost northPolarLoc offSolsticeDate).polarType =
        some PolarType.midnightSun ∧
    (calculateSunsetInfo oracleNoneHost southPolarLoc offSolsticeDate).polarType =
        some PolarType.polarNight := by
  have hn := calculateSunsetInfo_polar_default_classification oracleNoneHost northPolarLoc
    offSolsticeDate (by decide) (Or.inl rfl) (by decide)
  have hs := calculateSunsetInfo_polar_default_classification oracleNoneHost southPolarLoc
    offSolsticeDate (by decide) (Or.inl rfl) (by decide)
  have hposN : (0 : Rat) < northPolarLoc.latitude := by decide
  have hposS : ¬ (0 : Rat) < southPolarLoc.latitude := by decide
  constructor
  · have h := hn.2.2.1
    rwa [if_pos hposN] at h
  · have h := hs.2.2.1
    rwa [if_neg hposS] at h

/-- **C2 is false of the code** — `calculateSunsetInfo` performs no
coordinate-range validation: at latitude 999, longitude 999 the polar path is
taken and the oracle is consulted; with an oracle that yields values the query
*succeeds* and returns sunset info, and even with a valueless oracle the
failure is a polar classification (`isPolarRegion = true`), not an
invalid-coordinates failure. -/
theorem calculateSunsetInfo_invalid_coords_counterexample :
    (calculateSunsetInfo (constHost ⟨0, 18, 0, 0, 0⟩ ⟨0, 6, 0, 0, 0⟩)
        invalidLoc noonDay0).success = true ∧
    (calculateSunsetInfo (constHost ⟨0, 18, 0, 0, 0⟩ ⟨0, 6, 0, 0, 0⟩)
        invalidLoc noonDay0).sunsetInfo.isSome = true ∧
    (calculateSunsetInfo oracleNoneHost invalidLoc noonDay0).isPolarRegion = some true := by
  refine ⟨by decide, by decide, by decide⟩

/-- **C2 (amended)** — The Single-Day query itself never validates coordinate
ranges: any location with latitude 999 (whose absolute value exceeds the 66.5
polar threshold) is routed to `handlePolarRegion`, which invokes the oracle.
Coordinate-range validation exists in the repository only as
`GeolocationService.isValidLocation`, a caller-side check, which indeed
rejects latitude 999, longitude 999. -/
theorem calculateSunsetInfo_no_coordinate_validation :
    (∀ (host : Host) (location : Location) (d : DateTime),
      location.latitude = 999 →
      calculateSunsetInfo host location d = handlePolarRegion host location d) ∧
    isValidLocation 999 999 = false := by
  constructor
  · intro host location d hlat
    apply calculateSunsetInfo_polar_path
    rw [hlat]
    decide
  · decide

/-- Closed instance of the amended C2 at the concrete out-of-range location. -/
theorem calculateSunsetInfo_no_coordinate_validation_witness :
    calculateSunsetInfo oracleNoneHost invalidLoc noonDay0 =
      handlePolarRegion oracleNoneHost invalidLoc noonDay0 ∧
    isValidLocation 999 999 = false :=
  ⟨(calculateSunsetInfo_no_coordinate_validation).1 oracleNoneHost invalidLoc noonDay0 rfl,
    (calculateSunsetInfo_no_coordinate_validation).2⟩

/-!
## The milestone ladder loop: step equations and bound
-/

theorem upcomingLoop_zero (host : Host) (location : Location)
    (currentDate prev : DateTime) :
    upcomingLoop host location currentDate prev 0 = [] := rfl

theorem upcomingLoop_succ (host : Host) (location : Location)
    (currentDate prev : DateTime) (n : Nat) :
    upcomingLoop host location currentDate prev (n + 1) =
      if 21 < (addMs prev (30 * 60 * 1000)).hour ∨
          ((addMs prev (30 * 60 * 1000)).hour = 21 ∧
            30 < (addMs prev (30 * 60 * 1000)).minute) then []
      else
        match findSunsetAfterTime host location (addMs prev (30 * 60 * 1000))
            currentDate 365 with
        | some result =>
          upcomingEntry currentDate (addMs prev (30 * 60 * 1000)) result
            :: upcomingLoop host location currentDate (addMs prev (30 * 60 * 1000)) n
        | none => upcomingLoop host location currentDate (addMs prev (30 * 60 * 1000)) n
      := rfl

/-- A `DateTime` rebuilt from epoch milliseconds has an in-range minute field. -/
theorem ofEpochMs_minute_lt (t : Nat) : (ofEpochMs t).minute < 60 := by
  have hmod : t % 3600000 < 3600000 := Nat.mod_lt _ (by norm_num)
  have := (Nat.div_lt_iff_lt_mul (by norm_num : (0 : Nat) < 60000)).mpr
    (by omega : t % 3600000 < 60 * 60000)
  simpa [ofEpochMs] using this

theorem upcomingLoop_mem_bounded (host : Host) (location : Location)
    (currentDate : DateTime) :
    ∀ n prev m, m ∈ upcomingLoop host location currentDate prev n →
      timeOfDayMinutes m.time ≤ 21 * 60 + 30 := by
  intro n
  induction n with
  | zero =>
    intro prev m h
    rw [upcomingLoop_zero] at h
    cases h
  | succ n ih =>
    intro prev m h
    rw [upcomingLoop_succ] at h
    by_cases hg : 21 < (addMs prev (30 * 60 * 1000)).hour ∨
        ((addMs prev (30 * 60 * 1000)).hour = 21 ∧
          30 < (addMs prev (30 * 60 * 1000)).minute)
    · rw [if_pos hg] at h
      cases h
    · rw [if_neg hg] at h
      rcases hf : findSunsetAfterTime host location (addMs prev (30 * 60 * 1000))
          currentDate 365 with _ | r
      · rw [hf] at h
        exact ih _ m h
      · rw [hf] at h
        rcases List.mem_cons.mp h with rfl | h'
        · have hmin : (addMs prev (30 * 60 * 1000)).minute < 60 := ofEpochMs_minute_lt _
          simp only [upcomingEntry, timeOfDayMinutes]
          omega
        · exact ih _ m h'

/-- **C3 is false of the code** — the ladder loop's stop condition is
`hours > 21 || (hours === 21 && minutes > 30)`, i.e. it stops past 21:30, not
past 21:00: with today's sunset at 20:40 (primary boundary 21:00) and a later
sunset at 21:30, `getUpcomingMilestones` emits a secondary milestone at 21:30. -/
theorem getUpcomingMilestones_2130_counterexample :
    (getUpcomingMilestones (stepHost ⟨0, 20, 40, 0, 0⟩ ⟨1, 21, 30, 0, 0⟩) seattleLoc
        noonDay0 1).map (fun m => (m.time.hour, m.time.minute)) = [(21, 30)] := by
  decide

/-- **C3 (amended)** — Every secondary milestone returned by
`getUpcomingMilestones` has a clock time at or before 21:30 (not 21:00): the
iteration stops as soon as a candidate 30-minute boundary exceeds 21:30, so a
slot at exactly 21:30 may appear in the output but a later one never does. -/
theorem getUpcomingMilestones_bounded (host : Host) (location : Location)
    (currentDate : DateTime) (count : Nat) :
    ∀ m ∈ getUpcomingMilestones host location currentDate count,
      timeOfDayMinutes m.time ≤ 21 * 60 + 30 := by
  intro m hm
  unfold getUpcomingMilestones at hm
  split at hm
  · cases hm
  · exact upcomingLoop_mem_bounded host location currentDate count _ m hm

/-- Closed instance of the amended C3, applied to the member the
counterexample scenario emits at exactly 21:30. -/
theorem getUpcomingMilestones_bounded_witness :
    timeOfDayMinutes (⟨0, 21, 30, 0, 0⟩ : DateTime) ≤ 21 * 60 + 30 :=
  getUpcomingMilestones_bounded (stepHost ⟨0, 20, 40, 0, 0⟩ ⟨1, 21, 30, 0, 0⟩)
    seattleLoc noonDay0 1
    ({ time := ⟨0, 21, 30, 0, 0⟩
       type := MilestoneType.halfHour
       label := "9:30 PM"
       isPrimary := false
       targetDate := ⟨1, 21, 30, 0, 0⟩
       daysUntil := 2 })
    (by decide)

/-- **C5 is false of the code** — the guard in `calculateCountdown` is
`totalMilliseconds < 0`, not `≤ 0`: when the resolved target instant equals
`now` exactly (today's sunset at 23:40 rounds up to the 24:00 boundary, whose
time of day is 0, so today qualifies immediately and the matched sunset
instant is `now` itself), the function returns an all-zero breakdown instead
of null, even though the target is not strictly in the future. -/
theorem calculateCountdown_zero_remaining_counterexample :
    (calculateCountdown (constHost ⟨0, 23, 40, 0, 0⟩ ⟨0, 6, 0, 0, 0⟩) seattleLoc
        ⟨0, 23, 40, 0, 0⟩).map
      (fun c => (c.timeRemaining.days, c.timeRemaining.hours, c.timeRemaining.minutes,
        c.timeRemaining.seconds, toEpochMs c.targetDate)) =
      some (0, 0, 0, 0, toEpochMs (⟨0, 23, 40, 0, 0⟩ : DateTime)) := by
  decide

/-- **C5 (amended)** — `calculateCountdown` returns null when no milestone is
found, and any breakdown it returns targets an instant at or after `now`
(so a target strictly in the past yields null; a target exactly equal to
`now` yields the all-zero breakdown) with components bounded by their natural
modulus: hours ≤ 23, minutes ≤ 59, seconds ≤ 59 (days is a natural number,
hence non-negative). -/
theorem calculateCountdown_null_or_bounded (host : Host) (location : Location)
    (currentDate : DateTime) :
    ((getNextMilestone host location currentDate).milestone = none →
      calculateCountdown host location currentDate = none) ∧
    (∀ c, calculateCountdown host location currentDate = some c →
      (toEpochMs currentDate : Int) ≤ toEpochMs c.targetDate ∧
      c.timeRemaining.hours ≤ 23 ∧
      c.timeRemaining.minutes ≤ 59 ∧
      c.timeRemaining.seconds ≤ 59) := by
  constructor
  · intro h
    simp only [calculateCountdown]
    rw [h]
  · intro c hc
    simp only [calculateCountdown] at hc
    split at hc
    · cases hc
    · split at hc
      · cases hc
      · split at hc
        · cases hc
        · split at hc
          · cases hc
          · rename_i milestone hmil hday result hfind htms
            rw [Option.some.injEq] at hc
            subst hc
            rw [not_lt] at htms
            dsimp only
            refine ⟨by omega, ?_, ?_, ?_⟩
            · have hmod : ((toEpochMs result.sunsetTime : Int) -
                  (toEpochMs currentDate : Int)).toNat % 86400000 < 86400000 :=
                Nat.mod_lt _ (by norm_num)
              have := (Nat.div_lt_iff_lt_mul (by norm_num : (0 : Nat) < 3600000)).mpr
                (by omega : ((toEpochMs result.sunsetTime : Int) -
                  (toEpochMs currentDate : Int)).toNat % 86400000 < 24 * 3600000)
              omega
            · have hmod : ((toEpochMs result.sunsetTime : Int) -
                  (toEpochMs currentDate : Int)).toNat % 3600000 < 3600000 :=
                Nat.mod_lt _ (by norm_num)
              have := (Nat.div_lt_iff_lt_mul (by norm_num : (0 : Nat) < 60000)).mpr
                (by omega : ((toEpochMs result.sunsetTime : Int) -
                  (toEpochMs currentDate : Int)).toNat % 3600000 < 60 * 60000)
              omega
            · have hmod : ((toEpochMs result.sunsetTime : Int) -
                  (toEpochMs currentDate : Int)).toNat % 60000 < 60000 :=
                Nat.mod_lt _ (by norm_num)
              have := (Nat.div_lt_iff_lt_mul (by norm_num : (0 : Nat) < 1000)).mpr
                (by omega : ((toEpochMs result.sunsetTime : Int) -
                  (toEpochMs currentDate : Int)).toNat % 60000 < 60 * 1000)
              omega

/-- Closed instance of the amended C5 at the zero-remaining scenario: the
returned breakdown's components are within bounds and its target is not
before `now`. -/
theorem calculateCountdown_null_or_bounded_witness :
    (toEpochMs (⟨0, 23, 40, 0, 0⟩ : DateTime) : Int) ≤
      toEpochMs ((⟨0, 23, 40, 0, 0⟩ : DateTime)) ∧
    (0 : Nat) ≤ 23 ∧ (0 : Nat) ≤ 59 ∧ (0 : Nat) ≤ 59 := by
  have h := (calculateCountdown_null_or_bounded
    (constHost ⟨0, 23, 40, 0, 0⟩ ⟨0, 6, 0, 0, 0⟩) seattleLoc ⟨0, 23, 40, 0, 0⟩).2
    { timeRemaining := { days := 0, hours := 0, minutes := 0, seconds := 0 }
      milestone :=
        { time := ⟨1, 0, 0, 0, 0⟩
          type := MilestoneType.hour
          label := "12:00 AM"
          isPrimary := true }
      totalMinutes := 0
      targetDate := ⟨0, 23, 40, 0, 0⟩ } (by decide)
  exact ⟨h.1, h.2.1, h.2.2.1, h.2.2.2⟩

/-!
## Rounding to the next milestone boundary, and the follow-up fallback
-/

/-- A sample successful Single-Day result used by closed instances. -/
def sampleSunsetInfo : SunsetInfo :=
  { sunset := ⟨0, 17, 0, 0, 0⟩
    sunrise := ⟨0, 6, 0, 0, 0⟩
    location := seattleLoc
    date := noonDay0
    timezone := "America/Los_Angeles"
    hasSunset := true }

/-- A sample `success := true` query result. -/
def sampleOkResult : SunCalculationResult :=
  { success := true
    sunsetInfo := some sampleSunsetInfo
    error := none
    isPolarRegion := none
    polarType := none }

/-- A sample `success := false` query result. -/
def sampleFailResult : SunCalculationResult :=
  { success := false
    sunsetInfo := none
    error := some ("calculation failed")
    isPolarRegion := some false
    polarType := none }

/-- A sample primary milestone. -/
def sampleMilestone : Milestone :=
  { time := ⟨0, 17, 30, 0, 0⟩
    type := MilestoneType.halfHour
    label := "5:30 PM"
    isPrimary := true }

/-- **C4** — `getNextMilestone` rounds today's sunset time of day up to the
next 30-minute boundary, using the *following* boundary when the sunset is
already exactly on one: minute < 30 gives :30 of the same hour (so a sunset
at :00 sharp targets :30), and minute ≥ 30 gives :00 of the next hour (a
sunset at :30 sharp targets the next hour; hour 23 wraps to midnight of the
next day).  The returned primary milestone carries exactly that boundary —
not the sunset itself — and it is that boundary the definition hands to the
365-day `findSunsetAfterTime` search, whose match must exist for a milestone
to be returned. -/
theorem getNextMilestone_rounds_up_to_boundary :
    (∀ s : DateTime, s.minute < 30 →
      roundUpToNextHalfHour s =
        { day := s.day, hour := s.hour, minute := 30, second := 0, ms := 0 }) ∧
    (∀ s : DateTime, 30 ≤ s.minute → s.hour < 23 →
      roundUpToNextHalfHour s =
        { day := s.day, hour := s.hour + 1, minute := 0, second := 0, ms := 0 }) ∧
    (∀ s : DateTime, 30 ≤ s.minute → s.hour = 23 →
      roundUpToNextHalfHour s =
        { day := s.day + 1, hour := 0, minute := 0, second := 0, ms := 0 }) ∧
    (∀ (host : Host) (location : Location) (currentDate : DateTime)
        (info : SunsetInfo) (m : Milestone),
      (calculateSunsetInfo host location currentDate).success = true →
      (calculateSunsetInfo host location currentDate).sunsetInfo = some info →
      (getNextMilestone host location currentDate).milestone = some m →
      m.time = roundUpToNextHalfHour info.sunset ∧
      (findSunsetAfterTime host location (roundUpToNextHalfHour info.sunset)
        currentDate 365).isSome = true) := by
  refine ⟨?_, ?_, ?_, ?_⟩
  · intro s hmin
    unfold roundUpToNextHalfHour
    rw [if_pos hmin]
  · intro s hmin hhour
    unfold roundUpToNextHalfHour
    rw [if_neg (by omega)]
    unfold setHours
    have h1 : (s.hour + 1) / 24 = 0 := Nat.div_eq_of_lt (by omega)
    have h2 : (s.hour + 1) % 24 = s.hour + 1 := Nat.mod_eq_of_lt (by omega)
    rw [h1, h2, Nat.add_zero]
  · intro s hmin hhour
    unfold roundUpToNextHalfHour
    rw [if_neg (by omega)]
    unfold setHours
    rw [hhour]
  · intro host location currentDate info m hsucc hinfo hm
    have hget : (calculateSunsetInfo host location currentDate).sunsetInfo.get! = info := by
      rw [hinfo]; rfl
    simp only [getNextMilestone, hsucc, hget, if_true] at hm
    split at hm
    · rename_i result hfind
      simp only [assembleNextMilestone, Option.some.injEq] at hm
      subst hm
      exact ⟨rfl, by rw [hfind]; rfl⟩
    · cases hm

/-- Closed instance of C4: sunsets at 17:00, 17:45 and 23:45 round to 17:30,
18:00 and next-day 0:00 respectively, and in the two-day scenario the
returned primary milestone carries the 17:30 boundary, for which the search
found a match. -/
theorem getNextMilestone_rounds_up_to_boundary_witness :
    roundUpToNextHalfHour ⟨0, 17, 0, 0, 0⟩ = (⟨0, 17, 30, 0, 0⟩ : DateTime) ∧
    roundUpToNextHalfHour ⟨0, 17, 45, 0, 0⟩ = (⟨0, 18, 0, 0, 0⟩ : DateTime) ∧
    roundUpToNextHalfHour ⟨0, 23, 45, 0, 0⟩ = (⟨1, 0, 0, 0, 0⟩ : DateTime) ∧
    sampleMilestone.time = roundUpToNextHalfHour sampleSunsetInfo.sunset ∧
    (findSunsetAfterTime (stepHost ⟨0, 17, 0, 0, 0⟩ ⟨1, 18, 0, 0, 0⟩) seattleLoc
      (roundUpToNextHalfHour sampleSunsetInfo.sunset) noonDay0 365).isSome = true := by
  have h4 := (getNextMilestone_rounds_up_to_boundary).2.2.2
    (stepHost ⟨0, 17, 0, 0, 0⟩ ⟨1, 18, 0, 0, 0⟩) seattleLoc noonDay0
    sampleSunsetInfo sampleMilestone (by decide) (by decide) (by decide)
  exact ⟨(getNextMilestone_rounds_up_to_boundary).1 ⟨0, 17, 0, 0, 0⟩ (by decide),
    (getNextMilestone_rounds_up_to_boundary).2.1 ⟨0, 17, 45, 0, 0⟩ (by decide) (by decide),
    (getNextMilestone_rounds_up_to_boundary).2.2.1 ⟨0, 23, 45, 0, 0⟩ (by decide) rfl,
    h4.1, h4.2⟩

/-- `getNextMilestone` either reports no error or no milestone. -/
theorem getNextMilestone_error_or_no_milestone (host : Host) (location : Location)
    (currentDate : DateTime) :
    (getNextMilestone host location currentDate).error = none ∨
    (getNextMilestone host location currentDate).milestone = none := by
  simp only [getNextMilestone]
  split
  · split
    · left; rfl
    · right; rfl
  · right; rfl

/-- **C10** — In `getNextMilestone`'s success path, the result is assembled
from the follow-up Single-Day query for the matched date: when that follow-up
fails, the assembly still returns the milestone with its `daysUntil` and falls
back to *today's* sunset info, reporting no error.  (In the embedded pipeline
the follow-up repeats the very query the search just saw succeed, so the
fallback branch cannot actually fire; the first conjunct states the branch's
behaviour as a property of the assembly step, and the second that a returned
milestone is never accompanied by an error.) -/
theorem getNextMilestone_fallback_to_today :
    (∀ (milestone : Milestone) (daysUntil : Int)
        (todayResult futureResult : SunCalculationResult),
      futureResult.success = false →
      assembleNextMilestone milestone daysUntil todayResult futureResult =
        { milestone := some milestone
          sunsetInfo := some todayResult.sunsetInfo.get!
          daysUntil := daysUntil
          error := none }) ∧
    (∀ (host : Host) (location : Location) (currentDate : DateTime),
      (getNextMilestone host location currentDate).milestone.isSome = true →
      (getNextMilestone host location currentDate).error = none) := by
  constructor
  · intro milestone daysUntil todayResult futureResult hfail
    simp [assembleNextMilestone, hfail]
  · intro host location currentDate h
    rcases getNextMilestone_error_or_no_milestone host location currentDate with he | hn
    · exact he
    · rw [hn] at h
      simp at h

/-- Closed instance of C10: the assembly applied to a concrete failing
follow-up result keeps the milestone and today's info with no error, and the
two-day scenario's returned milestone comes with `error = none`. -/
theorem getNextMilestone_fallback_to_today_witness :
    assembleNextMilestone sampleMilestone 3 sampleOkResult sampleFailResult =
      { milestone := some sampleMilestone
        sunsetInfo := some sampleOkResult.sunsetInfo.get!
        daysUntil := 3
        error := none } ∧
    (getNextMilestone (stepHost ⟨0, 17, 0, 0, 0⟩ ⟨1, 18, 0, 0, 0⟩) seattleLoc
      noonDay0).error = none :=
  ⟨(getNextMilestone_fallback_to_today).1 sampleMilestone 3 sampleOkResult
      sampleFailResult rfl,
    (getNextMilestone_fallback_to_today).2
      (stepHost ⟨0, 17, 0, 0, 0⟩ ⟨1, 18, 0, 0, 0⟩) seattleLoc noonDay0 (by decide)⟩
